import Mathlib

/-!
Verification of the Cloud_Sage download/upload orchestration pipeline.

Shallow embedding of the decision logic of `src/main.py` (class
`VideoDownloaderBot`): the duration gate of `download_youtube_video`, the
error classifiers of both extraction adapters, the quality map of
`button_callback`, and the size-routing / retry / cleanup logic of
`process_youtube_download` and `process_instagram_download`.

I/O (Telegram calls, yt-dlp calls, the filesystem) is abstracted: an upload
attempt's result is an input to the model (`AttemptResult`), and the model
records which upload calls are made, which user-visible terminal outcome is
produced, and whether control reaches the `os.remove` cleanup block.
-/

namespace CloudSage

/-- Media kind of a successful extraction result:
`'audio' if quality == 'bestaudio' else 'video'` in `main.py`. -/
inductive MediaType
  | video
  | audio
deriving DecidableEq, Repr

/-- The Telegram upload calls `process_youtube_download` can make:
`reply_video`, `reply_audio` (typed inline media) or `reply_document`
(generic file attachment). -/
inductive UploadCall
  | replyVideo
  | replyAudio
  | replyDocument
deriving DecidableEq, Repr

/-- Result of one upload call, as seen by the `except` handlers in
`main.py`: either it returns, or it raises an exception whose `str` is
`msg`. -/
inductive AttemptResult
  | ok
  | err (msg : String)
deriving DecidableEq, Repr

/-! String helpers mirroring Python's `in` test on lowered text -/

/-- Occurrence test on character lists: Python's `needle in hay`. -/
def strIn (needle : List Char) : List Char → Bool
  | [] => needle.isEmpty
  | c :: rest => needle.isPrefixOf (c :: rest) || strIn needle rest

/-- Python `needle in hay` for strings. -/
def containsSub (hay needle : String) : Bool :=
  strIn needle.data hay.data

/-- Python `s.lower()` restricted to ASCII letters, which covers every
keyword and error text compared in `main.py`. -/
def pyLower (s : String) : String :=
  ⟨s.data.map Char.toLower⟩

/-- The timeout-flavor test used by every upload `except` handler in
`process_youtube_download`:
`"timeout" in error_msg.lower() or "timed out" in error_msg.lower()`. -/
def isTimeoutMsg (msg : String) : Bool :=
  containsSub (pyLower msg) "timeout" || containsSub (pyLower msg) "timed out"

/-! Constants from the source -/

/-- The small/large upload threshold in bytes: `50 * 1024 * 1024`. -/
def smallThreshold : Nat := 50 * 1024 * 1024

/-- The hard ceiling in bytes: `max_size = 2 * 1024 * 1024 * 1024`. -/
def max_size : Nat := 2 * 1024 * 1024 * 1024

/-- Retry cap of the small-file upload loop: `max_retries = 3`. -/
def max_retries : Nat := 3

/-- One mebibyte, for readable test inputs. -/
def MiB : Nat := 1024 * 1024

/-! Duration gate of `download_youtube_video` (main.py lines 185-219)

`duration = info.get('duration', 0)` [...]
`if duration and duration > 600: return {'error': 'Video is too long ...'}`
and only afterwards `ydl.download([url])`.

The probe value is modelled as `Option Int`: `none` is Python `None`
(present key with null value); a missing key is `some 0` by the `.get`
default. -/

/-- Python truthiness of the probed duration value. -/
def pyTruthy : Option Int → Bool
  | none => false
  | some v => v != 0

/-- The gate condition `if duration and duration > 600`, with Python's
short-circuit `and`. -/
def durationGateFires : Option Int → Bool
  | none => false
  | some v => (v != 0) && (v > 600)

/-- What `download_youtube_video` does next after the probe: either return
the too-long error dict, or proceed to `ydl.download([url])`. -/
inductive ExtractStep
  | errTooLong
  | runDownload
deriving DecidableEq, Repr

/-- The control flow of `download_youtube_video` between `extract_info`
and `ydl.download`, as a function of the probed duration. -/
def download_youtube_video (duration : Option Int) : ExtractStep :=
  if durationGateFires duration then ExtractStep.errTooLong
  else ExtractStep.runDownload

/-! Error classifiers (main.py lines 254-267 and 326-337) -/

/-- Keyword list of the YouTube `except` handler. -/
def youtubeAuthKeywords : List String :=
  ["login", "sign in", "private", "unavailable", "members only", "age-restricted"]

/-- Keyword list of the Instagram `except` handler. -/
def instagramAuthKeywords : List String :=
  ["login", "sign in", "private", "unavailable"]

/-- The error string `download_youtube_video` returns for an exception with
text `e`, given whether `youtube.com_cookies.txt` exists. -/
def youtube_error_message (e : String) (cookiesExist : Bool) : String :=
  let m := pyLower e
  if youtubeAuthKeywords.any (fun kw => containsSub m kw) then
    if cookiesExist then
      "Video requires authentication. Please update your YouTube cookies file."
    else
      "Video requires authentication. Please add your YouTube cookies file."
  else if containsSub m "requested format not available" then
    "Requested video quality not available. Try a different quality option."
  else
    "Download failed: " ++ e

/-- The error string `download_instagram_content` returns for an exception
with text `e`, given whether `instagram.com_cookies.txt` exists. -/
def instagram_error_message (e : String) (cookiesExist : Bool) : String :=
  let m := pyLower e
  if instagramAuthKeywords.any (fun kw => containsSub m kw) then
    if cookiesExist then
      "Content requires authentication. Please update your Instagram cookies file."
    else
      "Content requires authentication. Please add your Instagram cookies file."
  else
    "Download failed: " ++ e

/-! Quality resolver (main.py lines 386-395)

`quality_map` is a dict literal; `quality_map[quality]` raises `KeyError`
for an unknown key, modelled by `none`. -/

/-- The `quality_map` dict of `button_callback`; `none` models `KeyError`. -/
def quality_map (k : String) : Option String :=
  if k = "best" then some "136+140/best[height<=720]/18"
  else if k = "1080" then some "137+140/best[height<=1080]"
  else if k = "720" then some "136+140/best[height<=720]/134+140"
  else if k = "480" then some "135+140/best[height<=480]/134+140"
  else if k = "audio" then some "bestaudio[ext=m4a]/bestaudio"
  else none

/-- The enumerated set of quality keys offered by the inline keyboard. -/
def qualityKeys : List String := ["best", "1080", "720", "480", "audio"]

/-! The YouTube upload orchestration (main.py lines 440-536)

Modelled from the point where the download has succeeded and
`file_size = os.path.getsize(file_path)` is known.  The large branch makes
one upload call whose result is the input `largeResult`; the small branch
runs the retry loop, attempt `i` getting result `smallResults i`. -/

/-- The upload call the small (≤ 50 MiB) branch makes:
`reply_audio` if `result['type'] == 'audio'` else `reply_video`. -/
def smallCall : MediaType → UploadCall
  | MediaType.audio => UploadCall.replyAudio
  | MediaType.video => UploadCall.replyVideo

/-- The upload call the large (> 50 MiB) branch makes:
`reply_audio` if `result['type'] == 'audio'` else `reply_document`. -/
def largeCall : MediaType → UploadCall
  | MediaType.audio => UploadCall.replyAudio
  | MediaType.video => UploadCall.replyDocument

/-- How the small-file retry loop ends. -/
inductive SmallEnd
  | success
  | finalTimeout
  | hardFail (msg : String)
  | exhausted
deriving DecidableEq, Repr

/-- The `for attempt in range(max_retries)` loop, lines 487-525.  `fuel`
is the number of remaining iterations (`max_retries - attempt`).  Returns
the number of upload calls made and how the loop ended:
`success` = break with `upload_success = True`;
`finalTimeout` = the timeout-flavoured else branch that returns after the
"may still be uploading" message (line 522);
`hardFail` = the non-timeout else branch that returns (line 525);
`exhausted` = the loop ran out of iterations without break or return
(which would reach the `Upload failed after 3 attempts` message). -/
def smallLoopAux (results : Nat → AttemptResult) : Nat → Nat → Nat × SmallEnd
  | attempt, 0 => (attempt, SmallEnd.exhausted)
  | attempt, fuel + 1 =>
    match results attempt with
    | AttemptResult.ok => (attempt + 1, SmallEnd.success)
    | AttemptResult.err msg =>
      if isTimeoutMsg msg && decide (attempt < max_retries - 1) then
        smallLoopAux results (attempt + 1) fuel
      else if isTimeoutMsg msg then (attempt + 1, SmallEnd.finalTimeout)
      else (attempt + 1, SmallEnd.hardFail msg)

/-- The retry loop started at `attempt = 0` with `max_retries` iterations. -/
def smallLoop (results : Nat → AttemptResult) : Nat × SmallEnd :=
  smallLoopAux results 0 max_retries

/-- Terminal user-visible outcome of `process_youtube_download` after a
successful download. -/
inductive Outcome
  | tooLarge
  | docDelivered
  | largeAmbiguous
  | largeFailed (msg : String) (size : Nat)
  | smallDelivered
  | smallAmbiguous
  | smallFailed (msg : String) (size : Nat)
  | smallExhausted (attempts : Nat)
deriving DecidableEq, Repr

/-- Observable result of the upload phase: the upload calls made in order,
the terminal outcome, and whether control reached the `os.remove` cleanup
block at lines 533-536. -/
structure RunResult where
  calls : List UploadCall
  outcome : Outcome
  cleanup : Bool
deriving DecidableEq, Repr

/-- The size routing and upload phase of `process_youtube_download`
(lines 440-536), for a successfully downloaded file of `size` bytes and
media type `t`.  Branch by branch:
* `size > max_size`: edit "File is too large (>2GB)" and `return`
  (before the cleanup block, no upload call);
* `size > 50 MiB`: one upload call (`reply_audio` for audio, else
  `reply_document`); a timeout-flavoured exception leaves the message
  "may still be uploading in the background" and falls through to cleanup;
  any other exception edits "Upload failed: ... File: ... MB" and returns;
* otherwise: the retry loop; on break, "Download completed!" then cleanup;
  the loop's `finalTimeout` and `hardFail` ends `return` before cleanup;
  loop exhaustion would report failure after `max_retries` attempts and
  fall through to cleanup. -/
def process_youtube_download (t : MediaType) (size : Nat)
    (largeResult : AttemptResult) (smallResults : Nat → AttemptResult) :
    RunResult :=
  if size > max_size then
    ⟨[], Outcome.tooLarge, false⟩
  else if size > smallThreshold then
    match largeResult with
    | AttemptResult.ok => ⟨[largeCall t], Outcome.docDelivered, true⟩
    | AttemptResult.err msg =>
      if isTimeoutMsg msg then ⟨[largeCall t], Outcome.largeAmbiguous, true⟩
      else ⟨[largeCall t], Outcome.largeFailed msg size, false⟩
  else
    let r := smallLoop smallResults
    match r.2 with
    | SmallEnd.success =>
      ⟨List.replicate r.1 (smallCall t), Outcome.smallDelivered, true⟩
    | SmallEnd.finalTimeout =>
      ⟨List.replicate r.1 (smallCall t), Outcome.smallAmbiguous, false⟩
    | SmallEnd.hardFail msg =>
      ⟨List.replicate r.1 (smallCall t), Outcome.smallFailed msg size, false⟩
    | SmallEnd.exhausted =>
      ⟨List.replicate r.1 (smallCall t), Outcome.smallExhausted max_retries, true⟩

/-! The Instagram flow (main.py lines 269-296 and 546-589) -/

/-- Fixed yt-dlp format specifier of `download_instagram_content`. -/
def instagramFormat : String := "best[ext=mp4]/best"

/-- The `asyncio.wait_for` timeout (seconds) around the Instagram
download, line 555. -/
def instagramTimeout : Nat := 120

/-- Terminal outcome of `process_instagram_download` after a successful
download. -/
inductive InstaOutcome
  | tooLarge
  | delivered
  | uploadFailed (msg : String) (size : Nat)
deriving DecidableEq, Repr

/-- Observable result of the Instagram upload phase: number of
`reply_video` calls, outcome, and whether the cleanup block ran. -/
structure InstaRun where
  calls : Nat
  outcome : InstaOutcome
  cleanup : Bool
deriving DecidableEq, Repr

/-- The size check and upload phase of `process_instagram_download`
(lines 563-589): a flat 50 MiB ceiling whose exceedance returns with no
upload call; otherwise one `reply_video` call; an exception reports
"Upload failed ... MB" and returns before the cleanup block. -/
def process_instagram_download (size : Nat) (uploadResult : AttemptResult) :
    InstaRun :=
  if size > 50 * 1024 * 1024 then
    ⟨0, InstaOutcome.tooLarge, false⟩
  else
    match uploadResult with
    | AttemptResult.ok => ⟨1, InstaOutcome.delivered, true⟩
    | AttemptResult.err msg => ⟨1, InstaOutcome.uploadFailed msg size, false⟩

/-! Helper lemmas about the retry loop -/

/-- Invariant of the retry loop: started with `attempt + fuel = max_retries`
and at least one iteration left, it never ends `exhausted` (because the
`continue` branch requires `attempt < max_retries - 1`), makes at least one
more call, and makes at most `max_retries` calls in total. -/
theorem smallLoopAux_spec (results : Nat → AttemptResult) :
    ∀ fuel attempt, attempt + fuel = max_retries → 1 ≤ fuel →
      (smallLoopAux results attempt fuel).2 ≠ SmallEnd.exhausted ∧
      attempt + 1 ≤ (smallLoopAux results attempt fuel).1 ∧
      (smallLoopAux results attempt fuel).1 ≤ max_retries := by
  intro fuel
  induction fuel with
  | zero => intro attempt _ h1; omega
  | succ f ih =>
    intro attempt hsum _
    have hle : attempt + 1 ≤ max_retries := by omega
    cases hr : results attempt with
    | ok => simp [smallLoopAux, hr, hle]
    | err msg =>
      by_cases ht : isTimeoutMsg msg = true
      · by_cases ha : attempt < max_retries - 1
        · have hf : 1 ≤ f := by unfold max_retries at *; omega
          have h3 := ih (attempt + 1) (by omega) hf
          have hstep : smallLoopAux results attempt (f + 1) =
              smallLoopAux results (attempt + 1) f := by
            simp [smallLoopAux, hr, ht, ha]
          rw [hstep]
          exact ⟨h3.1, by omega, h3.2.2⟩
        · simp [smallLoopAux, hr, ht, ha, hle]
      · simp [smallLoopAux, hr, ht, hle]

/-- The loop started at attempt 0 never reports the exhausted end, makes at
least one call and at most `max_retries` calls. -/
theorem smallLoop_spec (results : Nat → AttemptResult) :
    (smallLoop results).2 ≠ SmallEnd.exhausted ∧
    1 ≤ (smallLoop results).1 ∧ (smallLoop results).1 ≤ max_retries :=
  smallLoopAux_spec results max_retries 0 rfl (by decide)

/-- When every attempt raises a timeout-flavoured error, the loop makes
exactly `max_retries` calls and ends in the final-timeout branch. -/
theorem smallLoop_all_timeouts (results : Nat → AttemptResult)
    (m0 m1 m2 : String)
    (h0 : results 0 = AttemptResult.err m0) (t0 : isTimeoutMsg m0 = true)
    (h1 : results 1 = AttemptResult.err m1) (t1 : isTimeoutMsg m1 = true)
    (h2 : results 2 = AttemptResult.err m2) (t2 : isTimeoutMsg m2 = true) :
    smallLoop results = (3, SmallEnd.finalTimeout) := by
  simp [smallLoop, max_retries, smallLoopAux, h0, h1, h2, t0, t1, t2]

/-- On the small path (`size ≤ 50 MiB`), the orchestrator is the retry loop
followed by the branch on how it ended. -/
theorem process_small_branch (t : MediaType) (size : Nat)
    (lr : AttemptResult) (sr : Nat → AttemptResult)
    (hs : size ≤ smallThreshold) :
    process_youtube_download t size lr sr =
      match (smallLoop sr).2 with
      | SmallEnd.success =>
        ⟨List.replicate (smallLoop sr).1 (smallCall t), Outcome.smallDelivered, true⟩
      | SmallEnd.finalTimeout =>
        ⟨List.replicate (smallLoop sr).1 (smallCall t), Outcome.smallAmbiguous, false⟩
      | SmallEnd.hardFail msg =>
        ⟨List.replicate (smallLoop sr).1 (smallCall t), Outcome.smallFailed msg size, false⟩
      | SmallEnd.exhausted =>
        ⟨List.replicate (smallLoop sr).1 (smallCall t), Outcome.smallExhausted max_retries, true⟩ := by
  have h1 : ¬ size > max_size := by unfold smallThreshold at hs; unfold max_size; omega
  have h2 : ¬ size > smallThreshold := by omega
  simp only [process_youtube_download, h1, h2, if_false]

/-! Claim theorems -/

/-- C5: for every probe whose metadata reports a duration greater than 600
seconds, `download_youtube_video` returns the too-long error and never
reaches `ydl.download`, so zero bytes are downloaded. -/
theorem duration_gate_blocks_download (v : Int) (h : 600 < v) :
    download_youtube_video (some v) = ExtractStep.errTooLong := by
  have hv : v ≠ 0 := by omega
  simp [download_youtube_video, durationGateFires, hv, h]

/-- Witness for `duration_gate_blocks_download` at duration 601. -/
theorem duration_gate_blocks_download_witness :
    download_youtube_video (some 601) = ExtractStep.errTooLong :=
  duration_gate_blocks_download 601 (by decide)

/-- C10: the duration-ceiling error fires if and only if the probed
duration is truthy and strictly greater than 600; in particular a `None`
or zero duration skips the check and the download proceeds. -/
theorem duration_gate_iff (d : Option Int) :
    (download_youtube_video d = ExtractStep.errTooLong ↔
      pyTruthy d = true ∧ 600 < d.getD 0) ∧
    download_youtube_video none = ExtractStep.runDownload ∧
    download_youtube_video (some 0) = ExtractStep.runDownload := by
  refine ⟨?_, by decide, by decide⟩
  cases d with
  | none => simp [download_youtube_video, durationGateFires, pyTruthy]
  | some v =>
    by_cases hv : v = 0
    · subst hv; simp [download_youtube_video, durationGateFires, pyTruthy]
    · by_cases h6 : (600 : Int) < v
      · simp [download_youtube_video, durationGateFires, pyTruthy, hv, h6]
      · simp [download_youtube_video, durationGateFires, pyTruthy, hv, h6]

/-- C7: every key of the enumerated set maps to a non-empty format
fallback chain (`quality_map` is a pure function, hence deterministic),
and every key outside the set fails the lookup (`KeyError`, modelled as
`none`). -/
theorem quality_map_spec :
    (∀ k ∈ qualityKeys, ∃ s, quality_map k = some s ∧ s ≠ "") ∧
    (∀ k, k ∉ qualityKeys → quality_map k = none) := by
  constructor
  · intro k hk
    simp only [qualityKeys, List.mem_cons, List.not_mem_nil, or_false] at hk
    rcases hk with rfl | rfl | rfl | rfl | rfl <;> exact ⟨_, rfl, by decide⟩
  · intro k hk
    simp only [qualityKeys, List.mem_cons, List.not_mem_nil, or_false,
      not_or] at hk
    obtain ⟨n1, n2, n3, n4, n5⟩ := hk
    simp [quality_map, n1, n2, n3, n4, n5]

/-- Witness for `quality_map_spec`: the known key `best` resolves to a
non-empty chain and the unknown key `4k` fails the lookup. -/
theorem quality_map_spec_witness :
    (∃ s, quality_map "best" = some s ∧ s ≠ "") ∧ quality_map "4k" = none :=
  ⟨quality_map_spec.1 "best" (by decide), quality_map_spec.2 "4k" (by decide)⟩

/-- C9 counterexample: the error text `members only` is in the claimed
keyword list (the YouTube adapter's list), yet the Instagram adapter
classifies it as a generic failure, not as authentication-required, for
either cookie configuration. -/
theorem instagram_members_only_not_auth :
    (youtubeAuthKeywords.any
      (fun kw => containsSub (pyLower "members only") kw)) = true ∧
    instagram_error_message "members only" false =
      "Download failed: members only" ∧
    instagram_error_message "members only" true =
      "Download failed: members only" := by
  decide

/-- C9 amended: each adapter classifies an error as
authentication-required according to its own keyword list (the YouTube
one has all six keywords, the Instagram one only
login / sign in / private / unavailable), and the resulting message asks
to update the cookie file when it is configured and to add it when not. -/
theorem auth_classification (e : String) (c : Bool) :
    ((youtubeAuthKeywords.any fun kw => containsSub (pyLower e) kw) = true →
      youtube_error_message e c =
        if c then
          "Video requires authentication. Please update your YouTube cookies file."
        else
          "Video requires authentication. Please add your YouTube cookies file.") ∧
    ((instagramAuthKeywords.any fun kw => containsSub (pyLower e) kw) = true →
      instagram_error_message e c =
        if c then
          "Content requires authentication. Please update your Instagram cookies file."
        else
          "Content requires authentication. Please add your Instagram cookies file.") := by
  constructor
  · intro h
    simp [youtube_error_message, h]
  · intro h
    simp [instagram_error_message, h]

/-- Witness for `auth_classification`: an age-restricted YouTube error
with no cookie file asks to add it; a login-flavoured Instagram error with
a cookie file asks to update it. -/
theorem auth_classification_witness :
    youtube_error_message "Video is Age-Restricted" false =
      "Video requires authentication. Please add your YouTube cookies file." ∧
    instagram_error_message "Login required" true =
      "Content requires authentication. Please update your Instagram cookies file." :=
  ⟨(auth_classification "Video is Age-Restricted" false).1 (by decide),
   (auth_classification "Login required" true).2 (by decide)⟩

/-- C1 counterexample: for an audio file of 100 MiB — inside (50 MiB,
2 GiB] — the single upload call made is `reply_audio`, the typed
inline-media call, not the generic `reply_document` call the claim
requires for that range. -/
theorem large_audio_uses_typed_call :
    (process_youtube_download MediaType.audio (100 * MiB) AttemptResult.ok
      (fun _ => AttemptResult.ok)).calls = [UploadCall.replyAudio] ∧
    UploadCall.replyAudio ≠ UploadCall.replyDocument := by
  constructor
  · rfl
  · decide

/-- C1 amended: routing by observed size.  Above 2 GiB the orchestrator
reports the too-large failure and makes no upload call; in (50 MiB, 2 GiB]
it makes exactly one large-branch call, which is `reply_document` for
video but `reply_audio` for audio; at or below 50 MiB every call it makes
is the typed inline-media call (`reply_video` or `reply_audio`), and it
makes at least one. -/
theorem size_routing (t : MediaType) (size : Nat)
    (lr : AttemptResult) (sr : Nat → AttemptResult) :
    (max_size < size →
      process_youtube_download t size lr sr = ⟨[], Outcome.tooLarge, false⟩) ∧
    (smallThreshold < size → size ≤ max_size →
      (process_youtube_download t size lr sr).calls = [largeCall t]) ∧
    (size ≤ smallThreshold →
      (process_youtube_download t size lr sr).calls ≠ [] ∧
      ∀ c ∈ (process_youtube_download t size lr sr).calls, c = smallCall t) := by
  refine ⟨?_, ?_, ?_⟩
  · intro h
    simp [process_youtube_download, h]
  · intro h1 h2
    have hns : ¬ size > max_size := by omega
    cases lr with
    | ok => simp [process_youtube_download, hns, h1]
    | err msg =>
      by_cases ht : isTimeoutMsg msg = true
      · simp [process_youtube_download, hns, h1, ht]
      · simp [process_youtube_download, hns, h1, ht]
  · intro hs
    rw [process_small_branch t size lr sr hs]
    have hpos := (smallLoop_spec sr).2.1
    have hne : List.replicate (smallLoop sr).1 (smallCall t) ≠ [] := by
      cases hn : (smallLoop sr).1 with
      | zero => omega
      | succ m => simp
    have hall : ∀ c ∈ List.replicate (smallLoop sr).1 (smallCall t),
        c = smallCall t := fun c hc => List.eq_of_mem_replicate hc
    cases hend : (smallLoop sr).2 <;> exact ⟨hne, hall⟩

/-- Witness for `size_routing`: a 3 GiB file yields the too-large outcome
with no upload call, a 100 MiB video yields the single document call, and
a 10 MiB video's calls are all `reply_video`. -/
theorem size_routing_witness :
    process_youtube_download MediaType.video (3 * 1024 * MiB) AttemptResult.ok
      (fun _ => AttemptResult.ok) = ⟨[], Outcome.tooLarge, false⟩ ∧
    (process_youtube_download MediaType.video (100 * MiB) AttemptResult.ok
      (fun _ => AttemptResult.ok)).calls = [UploadCall.replyDocument] ∧
    ∀ c ∈ (process_youtube_download MediaType.video (10 * MiB) AttemptResult.ok
      (fun _ => AttemptResult.ok)).calls, c = UploadCall.replyVideo :=
  ⟨(size_routing MediaType.video (3 * 1024 * MiB) AttemptResult.ok
      (fun _ => AttemptResult.ok)).1 (by decide),
   (size_routing MediaType.video (100 * MiB) AttemptResult.ok
      (fun _ => AttemptResult.ok)).2.1 (by decide) (by decide),
   ((size_routing MediaType.video (10 * MiB) AttemptResult.ok
      (fun _ => AttemptResult.ok)).2.2 (by decide)).2⟩

/-- C2 counterexample: at 10 MiB with three consecutive timeout-flavoured
upload failures, the orchestrator makes 3 calls but reports the ambiguous
may-still-be-uploading outcome, not the definite `UploadFailed(3)` report
the claim requires (that report is unreachable). -/
theorem three_timeouts_not_reported_failed :
    (process_youtube_download MediaType.video (10 * MiB) AttemptResult.ok
      (fun _ => AttemptResult.err "timed out")).calls.length = 3 ∧
    (process_youtube_download MediaType.video (10 * MiB) AttemptResult.ok
      (fun _ => AttemptResult.err "timed out")).outcome =
        Outcome.smallAmbiguous ∧
    (process_youtube_download MediaType.video (10 * MiB) AttemptResult.ok
      (fun _ => AttemptResult.err "timed out")).outcome ≠
        Outcome.smallExhausted 3 := by
  refine ⟨rfl, rfl, by decide⟩

/-- C2 amended: on the small path, three consecutive timeout-flavoured
failures produce exactly 3 upload calls (no 4th attempt) and the ambiguous
may-still-be-uploading outcome — the loop's exhaustion report naming the
attempt count is dead code, as any third-attempt timeout takes the
ambiguous branch first. -/
theorem three_timeouts_three_calls_ambiguous (t : MediaType) (size : Nat)
    (lr : AttemptResult) (sr : Nat → AttemptResult) (m0 m1 m2 : String)
    (hs : size ≤ smallThreshold)
    (h0 : sr 0 = AttemptResult.err m0) (t0 : isTimeoutMsg m0 = true)
    (h1 : sr 1 = AttemptResult.err m1) (t1 : isTimeoutMsg m1 = true)
    (h2 : sr 2 = AttemptResult.err m2) (t2 : isTimeoutMsg m2 = true) :
    (process_youtube_download t size lr sr).calls.length = 3 ∧
    (process_youtube_download t size lr sr).outcome = Outcome.smallAmbiguous := by
  have hloop := smallLoop_all_timeouts sr m0 m1 m2 h0 t0 h1 t1 h2 t2
  rw [process_small_branch t size lr sr hs, hloop]
  simp

/-- Witness for `three_timeouts_three_calls_ambiguous` at 10 MiB with the
error text `timed out` on every attempt. -/
theorem three_timeouts_three_calls_ambiguous_witness :
    (process_youtube_download MediaType.video (10 * MiB) AttemptResult.ok
      (fun _ => AttemptResult.err "timed out")).calls.length = 3 ∧
    (process_youtube_download MediaType.video (10 * MiB) AttemptResult.ok
      (fun _ => AttemptResult.err "timed out")).outcome =
        Outcome.smallAmbiguous :=
  three_timeouts_three_calls_ambiguous MediaType.video (10 * MiB)
    AttemptResult.ok (fun _ => AttemptResult.err "timed out")
    "timed out" "timed out" "timed out"
    (by decide) rfl (by decide) rfl (by decide) rfl (by decide)

/-- C3: when the third (final) small-path attempt fails with a
timeout-flavoured error, the orchestrator reports the ambiguous
may-still-be-uploading outcome — not a definite failure — and makes no
further upload call beyond the three. -/
theorem final_timeout_ambiguous_no_retry (t : MediaType) (size : Nat)
    (lr : AttemptResult) (sr : Nat → AttemptResult) (m0 m1 m2 : String)
    (hs : size ≤ smallThreshold)
    (h0 : sr 0 = AttemptResult.err m0) (t0 : isTimeoutMsg m0 = true)
    (h1 : sr 1 = AttemptResult.err m1) (t1 : isTimeoutMsg m1 = true)
    (h2 : sr 2 = AttemptResult.err m2) (t2 : isTimeoutMsg m2 = true) :
    (process_youtube_download t size lr sr).outcome = Outcome.smallAmbiguous ∧
    (∀ m n, (process_youtube_download t size lr sr).outcome ≠
      Outcome.smallFailed m n) ∧
    (∀ n, (process_youtube_download t size lr sr).outcome ≠
      Outcome.smallExhausted n) ∧
    (process_youtube_download t size lr sr).calls =
      List.replicate 3 (smallCall t) := by
  have hloop := smallLoop_all_timeouts sr m0 m1 m2 h0 t0 h1 t1 h2 t2
  rw [process_small_branch t size lr sr hs, hloop]
  simp

/-- Witness for `final_timeout_ambiguous_no_retry` at 10 MiB audio with a
timeout text on each attempt. -/
theorem final_timeout_ambiguous_no_retry_witness :
    (process_youtube_download MediaType.audio (10 * MiB) AttemptResult.ok
      (fun _ => AttemptResult.err "Request timed out")).outcome =
        Outcome.smallAmbiguous ∧
    (process_youtube_download MediaType.audio (10 * MiB) AttemptResult.ok
      (fun _ => AttemptResult.err "Request timed out")).calls =
        List.replicate 3 UploadCall.replyAudio := by
  have h := final_timeout_ambiguous_no_retry MediaType.audio (10 * MiB)
    AttemptResult.ok (fun _ => AttemptResult.err "Request timed out")
    "Request timed out" "Request timed out" "Request timed out"
    (by decide) rfl (by decide) rfl (by decide) rfl (by decide)
  exact ⟨h.1, h.2.2.2⟩

/-- C4 (code bug): on several outcomes the function returns before the
cleanup block, so the temporary file is never deleted there: the small
path's ambiguous final timeout, the small path's non-timeout failure, the
large path's non-timeout failure, and the over-2-GiB rejection all leave
`cleanup = false` although the download succeeded. -/
theorem cleanup_skipped_on_early_return :
    (process_youtube_download MediaType.video (10 * MiB) AttemptResult.ok
      (fun _ => AttemptResult.err "upload timed out")).cleanup = false ∧
    (process_youtube_download MediaType.video (10 * MiB) AttemptResult.ok
      (fun _ => AttemptResult.err "flood control exceeded")).cleanup = false ∧
    (process_youtube_download MediaType.video (200 * MiB)
      (AttemptResult.err "bad request") (fun _ => AttemptResult.ok)).cleanup
        = false ∧
    (process_youtube_download MediaType.video (3 * 1024 * MiB)
      AttemptResult.ok (fun _ => AttemptResult.ok)).cleanup = false := by
  refine ⟨rfl, rfl, rfl, rfl⟩

/-- C6: on the large path, exactly one upload call is made whatever the
result (no retry loop); a timeout-flavoured failure yields the ambiguous
still-completing outcome with the cleanup block still reached (file
removed); any other failure yields the definite failure outcome carrying
the byte size. -/
theorem large_path_single_attempt (t : MediaType) (size : Nat)
    (msg : String) (sr : Nat → AttemptResult)
    (h1 : smallThreshold < size) (h2 : size ≤ max_size) :
    (∀ lr, (process_youtube_download t size lr sr).calls = [largeCall t]) ∧
    (isTimeoutMsg msg = true →
      process_youtube_download t size (AttemptResult.err msg) sr =
        ⟨[largeCall t], Outcome.largeAmbiguous, true⟩) ∧
    (isTimeoutMsg msg = false →
      process_youtube_download t size (AttemptResult.err msg) sr =
        ⟨[largeCall t], Outcome.largeFailed msg size, false⟩) := by
  have hns : ¬ size > max_size := by omega
  refine ⟨?_, ?_, ?_⟩
  · intro lr
    exact (size_routing t size lr sr).2.1 h1 h2
  · intro ht
    simp [process_youtube_download, hns, h1, ht]
  · intro ht
    simp [process_youtube_download, hns, h1, ht]

/-- Witness for `large_path_single_attempt`: a 120 MiB video whose single
upload call times out ends in the ambiguous outcome with the file still
removed; a non-timeout failure at the same size names the byte size. -/
theorem large_path_single_attempt_witness :
    process_youtube_download MediaType.video (120 * MiB)
      (AttemptResult.err "timed out") (fun _ => AttemptResult.ok) =
        ⟨[UploadCall.replyDocument], Outcome.largeAmbiguous, true⟩ ∧
    process_youtube_download MediaType.video (120 * MiB)
      (AttemptResult.err "bad request") (fun _ => AttemptResult.ok) =
        ⟨[UploadCall.replyDocument],
          Outcome.largeFailed "bad request" (120 * MiB), false⟩ :=
  ⟨(large_path_single_attempt MediaType.video (120 * MiB) "timed out"
      (fun _ => AttemptResult.ok) (by decide) (by decide)).2.1 (by decide),
   (large_path_single_attempt MediaType.video (120 * MiB) "bad request"
      (fun _ => AttemptResult.ok) (by decide) (by decide)).2.2 (by decide)⟩

/-- C8: the Instagram flow has a fixed format specifier and a 120-second
download deadline, a flat 50 MiB ceiling whose exceedance is terminal with
no upload call, and exactly one upload attempt with no retry — a failure
is terminal. -/
theorem instagram_flow_policy :
    instagramFormat = "best[ext=mp4]/best" ∧
    instagramTimeout = 120 ∧
    (∀ size r, 50 * 1024 * 1024 < size →
      process_instagram_download size r = ⟨0, InstaOutcome.tooLarge, false⟩) ∧
    (∀ size r, size ≤ 50 * 1024 * 1024 →
      (process_instagram_download size r).calls = 1) ∧
    (∀ size msg, size ≤ 50 * 1024 * 1024 →
      process_instagram_download size (AttemptResult.err msg) =
        ⟨1, InstaOutcome.uploadFailed msg size, false⟩) := by
  refine ⟨rfl, rfl, ?_, ?_, ?_⟩
  · intro size r h
    simp [process_instagram_download, h]
  · intro size r h
    have hns : ¬ size > 50 * 1024 * 1024 := by omega
    cases r <;> simp [process_instagram_download, hns]
  · intro size msg h
    have hns : ¬ size > 50 * 1024 * 1024 := by omega
    simp [process_instagram_download, hns]

/-- Witness for `instagram_flow_policy`: a 60 MiB file is rejected with no
upload call, and a 10 MiB file whose upload fails gets exactly one call
and a terminal failure. -/
theorem instagram_flow_policy_witness :
    process_instagram_download (60 * MiB) AttemptResult.ok =
      ⟨0, InstaOutcome.tooLarge, false⟩ ∧
    process_instagram_download (10 * MiB) (AttemptResult.err "network down") =
      ⟨1, InstaOutcome.uploadFailed "network down" (10 * MiB), false⟩ :=
  ⟨instagram_flow_policy.2.2.1 (60 * MiB) AttemptResult.ok (by decide),
   instagram_flow_policy.2.2.2.2 (10 * MiB) "network down" (by decide)⟩

end CloudSage
